import Mathlib

/-!
Verification of the Dandelion Sentinel scenario controller and swarm pose
engine. The definitions below are a shallow embedding of the TypeScript
source: `src/App.tsx` (scenario state controller), `src/constants.ts`
(timeline and threshold), `src/services/geminiService.ts` (report
generation), `src/components/Interface.tsx` (operator surface guard) and
`src/components/Scene3D.tsx` (per-agent target pose). JavaScript numbers
are modelled as rationals, `string | null` as `Option String`.
-/

namespace Sentinel

/-- Phase enumeration from `types.ts` (`SimulationPhase`). -/
inductive SimulationPhase where
  | IDLE
  | LISTENING
  | TRIGGERED
  | EJECTION
  | CRUISE
  | SENSING
  | LANDING
deriving DecidableEq, Repr

/-- Simulation state from `types.ts` (`SimulationState`). -/
structure SimulationState where
  phase : SimulationPhase
  audioLevel : ℚ
  threatLevel : ℚ
  report : Option String
  isGeneratingReport : Bool
deriving DecidableEq, Repr

/-- Timeline entry from `types.ts` (`ScenarioStep`). -/
structure ScenarioStep where
  phase : SimulationPhase
  title : String
  description : String
  icon : String
deriving DecidableEq, Repr

/-- Timeline from `src/constants.ts` (`SCENARIO_STEPS`); titles and
descriptions abbreviated to their Latin part, the phase order is the datum
all control logic uses. -/
def SCENARIO_STEPS : List ScenarioStep :=
  [ ⟨.LISTENING, "Listening", "ambient monitoring", "Ear"⟩,
    ⟨.TRIGGERED, "Trigger", "anomalous loud sound detected", "AlertTriangle"⟩,
    ⟨.EJECTION, "Ejection", "drones ejected by compressed gas", "Rocket"⟩,
    ⟨.CRUISE, "Silent Cruise", "plasma-wind silent flight", "Wind"⟩,
    ⟨.SENSING, "Sensing", "record and transmit audio evidence", "Wifi"⟩,
    ⟨.LANDING, "Landing", "pappus contracts, rapid descent", "Download"⟩ ]

/-- Threshold from `src/constants.ts` (`AUDIO_THRESHOLD = 0.6`). -/
def AUDIO_THRESHOLD : ℚ := 6/10

/-- Drone count from `src/constants.ts` (`DRONE_COUNT = 12`). -/
def DRONE_COUNT : ℕ := 12

/-- Index of the current phase in the timeline, as JavaScript
`SCENARIO_STEPS.findIndex(s => s.phase === prev.phase)` computes it:
`-1` when the phase (IDLE) is not in the timeline. -/
def findPhaseIndex (p : SimulationPhase) : ℤ :=
  match SCENARIO_STEPS.findIdx? (fun s => s.phase = p) with
  | some i => (i : ℤ)
  | none => -1

/-- Fallback step for the (provably unreachable) out-of-range list access
in the embedding of `SCENARIO_STEPS[nextIndex]`. -/
def fallbackStep : ScenarioStep := ⟨.IDLE, "", "", ""⟩

/-- Embedding of `nextPhase` from `src/App.tsx` lines 72-91: advance to
the next timeline index modulo the timeline length; when wrapping to
index 0 also clear `report`. -/
def nextPhase (prev : SimulationState) : SimulationState :=
  let currentIndex : ℤ := findPhaseIndex prev.phase
  let nextIndex : ℕ := ((currentIndex + 1) % (SCENARIO_STEPS.length : ℤ)).toNat
  if nextIndex = 0 then
    { prev with phase := (SCENARIO_STEPS.getD nextIndex fallbackStep).phase,
                report := none }
  else
    { prev with phase := (SCENARIO_STEPS.getD nextIndex fallbackStep).phase }

/-- Embedding of `resetSimulation` from `src/App.tsx` lines 93-99. -/
def resetSimulation (prev : SimulationState) : SimulationState :=
  { prev with phase := .LISTENING, report := none }

/-- The Timeline's cyclic successor relation, stated phase by phase from
the order of `SCENARIO_STEPS` (the spec's "cyclic successor"); IDLE is
not in the cycle and is mapped arbitrarily. -/
def timelineSucc : SimulationPhase → SimulationPhase
  | .LISTENING => .TRIGGERED
  | .TRIGGERED => .EJECTION
  | .EJECTION => .CRUISE
  | .CRUISE => .SENSING
  | .SENSING => .LANDING
  | .LANDING => .LISTENING
  | .IDLE => .LISTENING

/-- Membership of a phase in the Timeline. -/
def inTimeline (p : SimulationPhase) : Prop :=
  p ∈ SCENARIO_STEPS.map (fun s => s.phase)

instance (p : SimulationPhase) : Decidable (inTimeline p) := by
  unfold inTimeline; infer_instance

/-- Embedding of the state update inside `checkAudio`, `src/App.tsx`
lines 47-53: write the normalized loudness into `audioLevel`; if the
phase is Listening and the loudness exceeds `AUDIO_THRESHOLD`, also move
the phase to Triggered in the same update. -/
def checkAudioUpdate (prev : SimulationState) (normalized : ℚ) : SimulationState :=
  if prev.phase = .LISTENING ∧ AUDIO_THRESHOLD < normalized then
    { prev with audioLevel := normalized, phase := .TRIGGERED }
  else
    { prev with audioLevel := normalized }

/-- Operating mode from the spec's data model; the App version under
`src/` is manual-only, the demo-capable App (whose Interface survives in
the sources) is absent. -/
inductive Mode where
  | MANUAL
  | DEMO
deriving DecidableEq, Repr

/-- Controller state: the simulation state owned by the App plus the
operating mode, which the spec declares orthogonal to the phase. -/
structure ControllerState where
  sim : SimulationState
  mode : Mode
deriving DecidableEq, Repr

/-- Modelled from the spec: the demo-capable App's `onAudioLevel` is not
under `src/`; per spec §4.2 it updates `audioLevel = v` in both modes and
honors the audio-trigger rule only in Manual mode. The Manual branch is
exactly `checkAudioUpdate` from `src/App.tsx`. -/
def onAudioLevel (c : ControllerState) (v : ℚ) : ControllerState :=
  match c.mode with
  | .MANUAL => { c with sim := checkAudioUpdate c.sim v }
  | .DEMO => { c with sim := { c.sim with audioLevel := v } }

/-- Reset of the full controller: phase and report handling is the
embedding of `resetSimulation`, `src/App.tsx` lines 93-99. Modelled from
the spec: the mode component (`reset()` forces `Mode = Manual`, §4.2)
belongs to the demo-capable App absent from `src/`. -/
def resetController (c : ControllerState) : ControllerState :=
  { sim := resetSimulation c.sim, mode := .MANUAL }

/-- Embedding of the auto-advance effect body, `src/App.tsx` lines
102-116: the timer (delay in milliseconds, phase installed when it fires)
scheduled for a given phase — Triggered and Ejection each schedule a
3000 ms advance, every other phase schedules nothing. -/
def scheduledTimer : SimulationPhase → Option (ℕ × SimulationPhase)
  | .TRIGGERED => some (3000, .EJECTION)
  | .EJECTION => some (3000, .CRUISE)
  | _ => none

/-- Simulation state paired with the (at most one, by type) pending
auto-advance timer of the effect in `src/App.tsx` lines 102-116. -/
structure TimedState where
  sim : SimulationState
  pending : Option (ℕ × SimulationPhase)
deriving DecidableEq, Repr

/-- Re-running the effect after a state update: the cleanup clears the
previous timeout and the body schedules the timer for the new phase. -/
def installTimer (s : SimulationState) : TimedState :=
  ⟨s, scheduledTimer s.phase⟩

/-- Events that can reach the controller in the App under `src/`:
the operator's Next and Reset commands, an audio sample, and the firing
of the pending auto-advance timeout. -/
inductive Event where
  | advance
  | reset
  | audio (v : ℚ)
  | timerFire
deriving DecidableEq, Repr

/-- One step of the controller with timer bookkeeping: each event applies
the corresponding `src/App.tsx` state update, and the effect keyed on
`state.phase` replaces the pending timer with the one for the resulting
phase. A firing timer installs its recorded phase (the timeout callbacks
at lines 106-112); with no pending timer nothing fires. -/
def step (ts : TimedState) (e : Event) : TimedState :=
  match e with
  | .advance => installTimer (nextPhase ts.sim)
  | .reset => installTimer (resetSimulation ts.sim)
  | .audio v => installTimer (checkAudioUpdate ts.sim v)
  | .timerFire =>
    match ts.pending with
    | some (_, q) => installTimer { ts.sim with phase := q }
    | none => ts

/-- Embedding of one invocation of `handleGenerateReport`,
`src/App.tsx` lines 118-128, up to its suspension point: it sets
`isGeneratingReport = true` and issues the request to the external
generator unconditionally — the function body contains no guard on
`isGeneratingReport`. The second component counts the requests this
invocation issues. -/
def handleGenerateReportInvoke (s : SimulationState) : SimulationState × ℕ :=
  ({ s with isGeneratingReport := true }, 1)

/-- Embedding of the completion of `handleGenerateReport`,
`src/App.tsx` line 127: write the resulting text into `report` and clear
`isGeneratingReport`, unconditionally. -/
def handleGenerateReportComplete (s : SimulationState) (text : String) :
    SimulationState :=
  { s with report := some text, isGeneratingReport := false }

/-- The operator surface guard from `src/components/Interface.tsx`: the
Generate Report button carries `disabled={isGeneratingReport}`. -/
def generateButtonDisabled (s : SimulationState) : Bool :=
  s.isGeneratingReport

/-- Invoking report generation through the operator surface: a disabled
button delivers no click, so no state change and no request; otherwise
the handler runs. -/
def uiGenerateReport (s : SimulationState) : SimulationState × ℕ :=
  if generateButtonDisabled s then (s, 0) else handleGenerateReportInvoke s

/-- Outcome of the external call `ai.models.generateContent` in
`src/services/geminiService.ts`: a response whose `text` field may be
absent, or a thrown error caught by the surrounding try/catch. -/
inductive GenContentOutcome where
  | response (text : Option String)
  | thrown
deriving DecidableEq, Repr

/-- Embedding of `generateTacticalReport`,
`src/services/geminiService.ts` lines 8-42: an empty (falsy) API key
short-circuits to an error string; otherwise the response text is
returned, with `response.text || fallback` replacing an absent or empty
text; a thrown error is converted to an offline message. Total function:
every outcome yields a string, nothing propagates to the caller. -/
def generateTacticalReport (apiKey : String) (outcome : GenContentOutcome) :
    String :=
  if apiKey = "" then
    "Error: API Key is missing. Please configure process.env.API_KEY."
  else
    match outcome with
    | .response (some t) =>
        if t = "" then "Report generation failed." else t
    | .response none => "Report generation failed."
    | .thrown => "System Offline: Unable to generate report due to connection error."

/-- Phase operations that can run while a report request is in flight. -/
inductive PhaseOp where
  | advance
  | reset
deriving DecidableEq, Repr

/-- Apply a sequence of phase operations to the simulation state. -/
def applyPhaseOps : List PhaseOp → SimulationState → SimulationState
  | [], s => s
  | PhaseOp.advance :: ops, s => applyPhaseOps ops (nextPhase s)
  | PhaseOp.reset :: ops, s => applyPhaseOps ops (resetSimulation s)

/-- Target pose of an agent: position and Euler rotation, the pair the
drone `useFrame` body computes as `targetPos`/`targetRot`
(`src/components/Scene3D.tsx` lines 49-50). -/
structure Pose where
  pos : ℚ × ℚ × ℚ
  rot : ℚ × ℚ × ℚ
deriving DecidableEq, Repr

/-- Deterministic mathematical primitives the pose computation calls:
cosine, sine, the constant pi, and the composite
normalize/quaternion/Euler pipeline of `Scene3D.tsx` lines 67-70 applied
to the unnormalized outward direction vector. They are kept abstract
(any fixed interpretation): the determinism claims are about which
inputs the pose reads, not about trigonometric identities, and every
engine instance calls the same math library. -/
structure MathEnv where
  cos : ℚ → ℚ
  sin : ℚ → ℚ
  pi : ℚ
  eulerFromOutwardDirection : ℚ × ℚ × ℚ → ℚ × ℚ × ℚ

/-- Embedding of the per-tick target-pose computation of the drone
`useFrame` body, `src/components/Scene3D.tsx` lines 52-124. `rand k` is
the value of the k-th `Math.random()` call made during this tick (the
source calls it only in the EJECTION branch, four times); `cruiseSpeed`
is the per-agent seed captured once at creation (line 30,
`0.5 + Math.random() * 0.5`). -/
def droneTargetPose (env : MathEnv) (index : ℕ) (time : ℚ)
    (phase : SimulationPhase) (cruiseSpeed : ℚ) (rand : ℕ → ℚ) : Pose :=
  match phase with
  | .IDLE | .LISTENING | .TRIGGERED =>
      let ringAngle := ((index : ℚ) / (DRONE_COUNT : ℚ)) * env.pi * 2
      let ringR : ℚ := 85/100
      let basePos : ℚ × ℚ × ℚ :=
        (env.cos ringAngle * ringR,
         6/10 + env.sin (ringAngle * 3) * (1/10),
         env.sin ringAngle * ringR)
      let lookAtPos : ℚ × ℚ × ℚ := (0, -8/10, 0)
      let direction : ℚ × ℚ × ℚ :=
        (basePos.1 - lookAtPos.1, basePos.2.1 - lookAtPos.2.1,
         basePos.2.2 - lookAtPos.2.2)
      let rot := env.eulerFromOutwardDirection direction
      let pos :=
        if phase = .LISTENING then
          (basePos.1, basePos.2.1 + env.sin (time * 2 + index) * (1/100),
           basePos.2.2)
        else basePos
      ⟨pos, rot⟩
  | .EJECTION =>
      let ejAngle := ((index : ℚ) / (DRONE_COUNT : ℚ)) * env.pi * 2
      let ejR := 3/2 + rand 0
      ⟨(env.cos ejAngle * ejR, 5 + rand 1 * 3, env.sin ejAngle * ejR),
       (rand 2 * (1/2), 0, rand 3 * (1/2))⟩
  | .CRUISE | .SENSING =>
      let cAngle := time * cruiseSpeed * (2/10)
                    + ((index : ℚ) / (DRONE_COUNT : ℚ)) * env.pi * 2
      let cRadius : ℚ := 4
      ⟨(env.cos cAngle * cRadius + env.sin (time * (5/10) + index) * 1,
        45/10 + env.sin (time * (8/10) + index) * (15/10),
        env.sin cAngle * cRadius + env.cos (time * (5/10) + index) * 1),
       (env.sin (time + index) * (2/10) + 2/10,
        -cAngle + env.pi / 2,
        env.cos (time + index) * (2/10))⟩
  | .LANDING =>
      let lAngle := ((index : ℚ) / (DRONE_COUNT : ℚ)) * env.pi * 2
      let lRadius : ℚ := 4
      ⟨(env.cos lAngle * lRadius, 25/100, env.sin lAngle * lRadius),
       (0, lAngle, 0)⟩

/-- Concrete interpretation of the mathematical primitives used to
evaluate the pose function at specific inputs; the coordinates the
Ejection counterexample compares (y-position, 5 + 3 times a random draw)
do not involve these primitives at all. -/
def zeroMathEnv : MathEnv :=
  ⟨fun _ => 0, fun _ => 0, 0, fun _ => (0, 0, 0)⟩

end Sentinel

namespace Sentinel

/-- C1: for every phase in the Timeline, `advance()` (that is, `nextPhase`)
moves the phase to the Timeline's cyclic successor in exactly one step;
when the successor is Listening (advancing from Landing) it also sets
`report = null`, and otherwise leaves `report` unchanged. -/
theorem advance_cyclic_successor (s : SimulationState) (h : inTimeline s.phase) :
    (nextPhase s).phase = timelineSucc s.phase ∧
    (timelineSucc s.phase = .LISTENING → (nextPhase s).report = none) ∧
    (timelineSucc s.phase ≠ .LISTENING → (nextPhase s).report = s.report) := by
  obtain ⟨phase, audioLevel, threatLevel, report, isGeneratingReport⟩ := s
  cases phase <;>
    simp_all [inTimeline, nextPhase, findPhaseIndex, SCENARIO_STEPS, timelineSucc,
      List.findIdx?, fallbackStep]

/-- Witness for C1 at a concrete state: advancing from Landing yields
Listening with the report cleared. -/
theorem advance_cyclic_successor_witness :
    (nextPhase ⟨.LANDING, 0, 0, some "r", false⟩).phase = .LISTENING ∧
    (nextPhase ⟨.LANDING, 0, 0, some "r", false⟩).report = none := by
  have h := advance_cyclic_successor ⟨.LANDING, 0, 0, some "r", false⟩ (by decide)
  exact ⟨h.1, h.2.1 (by decide)⟩

/-- C2: in Manual mode, delivering an audio level v always writes
`audioLevel = v` and leaves report, threatLevel and isGeneratingReport
alone; from Listening, v above the threshold 0.6 moves the phase to
Triggered within the same update (retaining v), while v not above the
threshold leaves the phase at Listening; from any other phase the phase
never changes. -/
theorem onAudioLevel_manual (c : ControllerState) (v : ℚ) (hm : c.mode = .MANUAL) :
    (onAudioLevel c v).sim.audioLevel = v ∧
    (onAudioLevel c v).sim.report = c.sim.report ∧
    (onAudioLevel c v).sim.threatLevel = c.sim.threatLevel ∧
    (onAudioLevel c v).sim.isGeneratingReport = c.sim.isGeneratingReport ∧
    (c.sim.phase = .LISTENING → AUDIO_THRESHOLD < v →
      (onAudioLevel c v).sim.phase = .TRIGGERED) ∧
    (c.sim.phase = .LISTENING → ¬ AUDIO_THRESHOLD < v →
      (onAudioLevel c v).sim.phase = .LISTENING) ∧
    (c.sim.phase ≠ .LISTENING → (onAudioLevel c v).sim.phase = c.sim.phase) := by
  obtain ⟨⟨phase, audioLevel, threatLevel, report, isGeneratingReport⟩, mode⟩ := c
  cases mode with
  | MANUAL =>
      by_cases hp : phase = .LISTENING <;>
        simp_all [onAudioLevel, checkAudioUpdate] <;>
          split_ifs with h <;> simp_all
  | DEMO => cases hm

/-- Witness for C2: from Manual/Listening, a level of 0.7 triggers and a
level of 0.59 does not. -/
theorem onAudioLevel_manual_witness :
    (onAudioLevel ⟨⟨.LISTENING, 0, 0, none, false⟩, .MANUAL⟩ (7/10)).sim.phase
        = .TRIGGERED ∧
    (onAudioLevel ⟨⟨.LISTENING, 0, 0, none, false⟩, .MANUAL⟩ (59/100)).sim.phase
        = .LISTENING := by
  refine ⟨?_, ?_⟩
  · exact (onAudioLevel_manual ⟨⟨.LISTENING, 0, 0, none, false⟩, .MANUAL⟩ (7/10)
      rfl).2.2.2.2.1 rfl (by norm_num [AUDIO_THRESHOLD])
  · exact (onAudioLevel_manual ⟨⟨.LISTENING, 0, 0, none, false⟩, .MANUAL⟩ (59/100)
      rfl).2.2.2.2.2.1 rfl (by norm_num [AUDIO_THRESHOLD])

/-- C3: in Demo mode, delivering any audio level never changes the phase
(only `audioLevel` is written); the audio-trigger rule is Manual-only. -/
theorem onAudioLevel_demo_keeps_phase (c : ControllerState) (v : ℚ)
    (hm : c.mode = .DEMO) :
    (onAudioLevel c v).sim.phase = c.sim.phase ∧
    (onAudioLevel c v).sim.audioLevel = v := by
  obtain ⟨⟨phase, audioLevel, threatLevel, report, isGeneratingReport⟩, mode⟩ := c
  cases mode with
  | MANUAL => cases hm
  | DEMO => simp [onAudioLevel]

/-- Witness for C3: Demo/Listening with a loud level 0.9 stays Listening. -/
theorem onAudioLevel_demo_keeps_phase_witness :
    (onAudioLevel ⟨⟨.LISTENING, 0, 0, none, false⟩, .DEMO⟩ (9/10)).sim.phase
        = .LISTENING :=
  (onAudioLevel_demo_keeps_phase ⟨⟨.LISTENING, 0, 0, none, false⟩, .DEMO⟩ (9/10)
    rfl).1

/-- C4: `reset()` unconditionally yields phase Listening, a null report,
and Manual mode, for every prior controller state. -/
theorem reset_unconditional (c : ControllerState) :
    (resetController c).sim.phase = .LISTENING ∧
    (resetController c).sim.report = none ∧
    (resetController c).mode = .MANUAL := by
  simp [resetController, resetSimulation]

/-- C5: exactly two automatic transitions exist in the App under `src/`
(which is manual-only): Triggered schedules a 3000 ms advance to Ejection
and Ejection a 3000 ms advance to Cruise; every other phase schedules no
timer, a fired timer installs its recorded phase, with no pending timer
nothing fires, every step replaces the pending timer with the one for the
resulting phase (so at most one timer is pending and a phase change
cancels the stale one), and an audio event changes the phase only from
Listening with a level above the threshold. -/
theorem manual_timer_discipline :
    scheduledTimer .TRIGGERED = some (3000, .EJECTION) ∧
    scheduledTimer .EJECTION = some (3000, .CRUISE) ∧
    (∀ p, p ≠ SimulationPhase.TRIGGERED → p ≠ SimulationPhase.EJECTION →
      scheduledTimer p = none) ∧
    (∀ s, (installTimer s).pending = scheduledTimer s.phase) ∧
    (∀ ts e, ts.pending = scheduledTimer ts.sim.phase →
      (step ts e).pending = scheduledTimer (step ts e).sim.phase) ∧
    (∀ ts, ts.pending = none → step ts .timerFire = ts) ∧
    (∀ ts, ts.pending = scheduledTimer ts.sim.phase →
      ts.sim.phase = .TRIGGERED → (step ts .timerFire).sim.phase = .EJECTION) ∧
    (∀ ts, ts.pending = scheduledTimer ts.sim.phase →
      ts.sim.phase = .EJECTION → (step ts .timerFire).sim.phase = .CRUISE) ∧
    (∀ ts v, (step ts (.audio v)).sim.phase ≠ ts.sim.phase →
      ts.sim.phase = .LISTENING ∧ AUDIO_THRESHOLD < v) := by
  refine ⟨rfl, rfl, ?_, fun s => rfl, ?_, ?_, ?_, ?_, ?_⟩
  · intro p h1 h2
    cases p <;> simp_all [scheduledTimer]
  · intro ts e h
    cases e with
    | advance => rfl
    | reset => rfl
    | audio v => rfl
    | timerFire =>
        cases hp : ts.pending with
        | none => simpa [step, hp] using h
        | some dq => obtain ⟨d, q⟩ := dq; simp [step, hp, installTimer]
  · intro ts h
    obtain ⟨sim, pending⟩ := ts
    subst h
    rfl
  · intro ts h hp
    obtain ⟨sim, pending⟩ := ts
    simp_all [step, scheduledTimer, installTimer]
  · intro ts h hp
    obtain ⟨sim, pending⟩ := ts
    simp_all [step, scheduledTimer, installTimer]
  · intro ts v h
    obtain ⟨⟨phase, a, t, r, g⟩, pending⟩ := ts
    by_cases hc : phase = SimulationPhase.LISTENING ∧ AUDIO_THRESHOLD < v
    · exact hc
    · simp [step, installTimer, checkAudioUpdate, hc] at h

/-- Witness for C5: Cruise schedules no timer, and a pending Triggered
timer fires into Ejection at a concrete state. -/
theorem manual_timer_discipline_witness :
    scheduledTimer .CRUISE = none ∧
    (step ⟨⟨.TRIGGERED, 0, 0, none, false⟩, some (3000, .EJECTION)⟩
        .timerFire).sim.phase = .EJECTION := by
  refine ⟨manual_timer_discipline.2.2.1 _ (by decide) (by decide), ?_⟩
  exact manual_timer_discipline.2.2.2.2.2.2.1
    ⟨⟨.TRIGGERED, 0, 0, none, false⟩, some (3000, .EJECTION)⟩ rfl rfl

/-- Counterexample for C6: `handleGenerateReport` as written in
`src/App.tsx` lines 118-128 contains no guard on `isGeneratingReport`;
after a first invocation has set `isGeneratingReport = true`, a second
immediate invocation still issues a request (count 1, not 0), so two
invocations in immediate succession issue two requests, not one. -/
theorem generateReport_second_call_not_noop :
    ((handleGenerateReportInvoke ⟨.SENSING, 0, 0, none, false⟩).1).isGeneratingReport
        = true ∧
    (handleGenerateReportInvoke
        (handleGenerateReportInvoke ⟨.SENSING, 0, 0, none, false⟩).1).2 = 1 ∧
    (handleGenerateReportInvoke ⟨.SENSING, 0, 0, none, false⟩).2 +
      (handleGenerateReportInvoke
        (handleGenerateReportInvoke ⟨.SENSING, 0, 0, none, false⟩).1).2 = 2 := by
  decide

/-- C6 amended: the at-most-one-outstanding property is enforced by the
operator surface, not the handler: the Interface's Generate Report button
is disabled while `isGeneratingReport`, so from a state with no request
in flight, two UI invocations in immediate succession issue exactly one
request (the second delivers no click). -/
theorem uiGenerateReport_single_request (s : SimulationState)
    (h : s.isGeneratingReport = false) :
    (uiGenerateReport s).2 = 1 ∧
    (uiGenerateReport (uiGenerateReport s).1).2 = 0 ∧
    (uiGenerateReport s).2 + (uiGenerateReport (uiGenerateReport s).1).2 = 1 := by
  simp [uiGenerateReport, generateButtonDisabled, handleGenerateReportInvoke, h]

/-- Witness for the amended C6 at a concrete idle state. -/
theorem uiGenerateReport_single_request_witness :
    (uiGenerateReport ⟨.SENSING, 0, 0, none, false⟩).2 +
      (uiGenerateReport (uiGenerateReport ⟨.SENSING, 0, 0, none, false⟩).1).2 = 1 :=
  (uiGenerateReport_single_request ⟨.SENSING, 0, 0, none, false⟩ rfl).2.2

/-- C7: report generation never raises: for every API-key configuration
and every outcome of the external generator the embedding returns a
non-empty string, and completing the request writes that string (non-null)
into `report` and clears `isGeneratingReport`. -/
theorem generateReport_total_fallback (apiKey : String)
    (outcome : GenContentOutcome) (s : SimulationState) :
    generateTacticalReport apiKey outcome ≠ "" ∧
    (handleGenerateReportComplete s (generateTacticalReport apiKey outcome)).report
        = some (generateTacticalReport apiKey outcome) ∧
    (handleGenerateReportComplete s (generateTacticalReport apiKey outcome)).report
        ≠ none ∧
    (handleGenerateReportComplete s
        (generateTacticalReport apiKey outcome)).isGeneratingReport = false := by
  refine ⟨?_, rfl, by simp [handleGenerateReportComplete], rfl⟩
  unfold generateTacticalReport
  split_ifs with hk
  · decide
  · cases outcome with
    | response t =>
        cases t with
        | none => decide
        | some t0 =>
            by_cases ht : t0 = "" <;> simp [ht]
    | thrown => decide

/-- Helper: the phase operations preserve audioLevel, threatLevel and
isGeneratingReport over any sequence. -/
theorem applyPhaseOps_frame (ops : List PhaseOp) (s : SimulationState) :
    (applyPhaseOps ops s).audioLevel = s.audioLevel ∧
    (applyPhaseOps ops s).threatLevel = s.threatLevel ∧
    (applyPhaseOps ops s).isGeneratingReport = s.isGeneratingReport := by
  induction ops generalizing s with
  | nil => exact ⟨rfl, rfl, rfl⟩
  | cons op ops ih =>
      cases op with
      | advance =>
          have h := ih (nextPhase s)
          refine ⟨?_, ?_, ?_⟩ <;>
            simp_all [applyPhaseOps, nextPhase] <;> split <;> rfl
      | reset =>
          have h := ih (resetSimulation s)
          simpa [applyPhaseOps, resetSimulation] using h

/-- C8: an in-flight report request is never cancelled: once invoked, its
in-flight flag survives any sequence of phase transitions (advance or
reset, any number of wraps), and on completion the result is written into
`report` and `isGeneratingReport` is cleared regardless of those
transitions, leaving the phase the transitions produced (last write
wins). -/
theorem report_completion_last_write_wins (s : SimulationState)
    (ops : List PhaseOp) (text : String) :
    (applyPhaseOps ops (handleGenerateReportInvoke s).1).isGeneratingReport
        = true ∧
    (handleGenerateReportComplete
        (applyPhaseOps ops (handleGenerateReportInvoke s).1) text).report
        = some text ∧
    (handleGenerateReportComplete
        (applyPhaseOps ops (handleGenerateReportInvoke s).1)
        text).isGeneratingReport = false ∧
    (handleGenerateReportComplete
        (applyPhaseOps ops (handleGenerateReportInvoke s).1) text).phase
        = (applyPhaseOps ops (handleGenerateReportInvoke s).1).phase := by
  refine ⟨?_, rfl, rfl, rfl⟩
  exact (applyPhaseOps_frame ops (handleGenerateReportInvoke s).1).2.2

/-- C10: `advance()` and `reset()` change only the phase and report
fields: audioLevel, threatLevel and isGeneratingReport are left unchanged
by both — in particular a reset during an in-flight request does not
clear isGeneratingReport. -/
theorem phase_ops_change_only_phase_and_report (s : SimulationState) :
    (nextPhase s).audioLevel = s.audioLevel ∧
    (nextPhase s).threatLevel = s.threatLevel ∧
    (nextPhase s).isGeneratingReport = s.isGeneratingReport ∧
    (resetSimulation s).audioLevel = s.audioLevel ∧
    (resetSimulation s).threatLevel = s.threatLevel ∧
    (resetSimulation s).isGeneratingReport = s.isGeneratingReport := by
  refine ⟨?_, ?_, ?_, rfl, rfl, rfl⟩ <;>
    (unfold nextPhase; dsimp only; split <;> rfl)

/-- Counterexample for C9: in the Ejection phase the target pose is NOT a
pure function of (agent index, elapsed time, phase, fixedSeed): the
source draws fresh `Math.random()` values every tick there, so two
engines with identical seeds (`cruiseSpeed = 1/2`), identical inputs and
the same math library but independent random draws produce different
target poses — here the y-position is 5 + 3 times the draw, which does
not involve the abstract trigonometric primitives. -/
theorem dronePose_ejection_rerandomized :
    droneTargetPose zeroMathEnv 0 0 .EJECTION (1/2) (fun _ => 0)
      ≠ droneTargetPose zeroMathEnv 0 0 .EJECTION (1/2) (fun _ => 1/2) := by
  norm_num [droneTargetPose, zeroMathEnv, Pose.mk.injEq, Prod.mk.injEq]

/-- C9 amended: for every phase other than Ejection, the per-tick target
pose is a pure function of (agent index, elapsed time, phase, fixedSeed):
it reads none of the per-tick random draws, so two independently
constructed engines with identical `cruiseSpeed` seeds and identical tick
sequences produce identical target-pose trajectories; the function also
takes no other agent as input. In Ejection the source intentionally
re-randomizes the target each tick. -/
theorem dronePose_deterministic_outside_ejection (env : MathEnv) (index : ℕ)
    (time : ℚ) (phase : SimulationPhase) (cruiseSpeed : ℚ) (r1 r2 : ℕ → ℚ)
    (h : phase ≠ .EJECTION) :
    droneTargetPose env index time phase cruiseSpeed r1
      = droneTargetPose env index time phase cruiseSpeed r2 := by
  cases phase <;> first | rfl | exact absurd rfl h

/-- Witness for the amended C9 at a concrete phase and input. -/
theorem dronePose_deterministic_witness :
    droneTargetPose zeroMathEnv 0 0 .CRUISE (1/2) (fun _ => 0)
      = droneTargetPose zeroMathEnv 0 0 .CRUISE (1/2) (fun _ => 1) :=
  dronePose_deterministic_outside_ejection zeroMathEnv 0 0 .CRUISE (1/2)
    (fun _ => 0) (fun _ => 1) (by decide)

end Sentinel
